import Mathlib

/-!
Verification of the liver-segmentation 3D-reconstruction backend.

The Python sources are shallowly embedded over ℚ:

* numpy 2D arrays become `Grid` (`List (List ℚ)`), 3D volumes become
  `List Grid`, and a generic n-d array becomes `NdArray` (shape + flat data);
* external library calls (pyvista contouring and mesh repair, the keras
  model, skimage resize, file writes) become oracle functions stored in
  environment structures; a Python call that can raise becomes a function
  into `Except String _`;
* a Python `try/except` becomes a `match` on the `Except` value; a function
  that returns `{"success": False, "error": ...}` becomes `Except.error`
  or a `failure` constructor;
* `astype(np.uint8)` (C truncation wrapped mod 256) becomes `uint8`; the
  embedding applies it only to the nonnegative values produced by the
  normalization branches.

Each embedded definition mirrors one Python function and keeps its name
where Lean allows it.
-/

namespace LiverSeg

/-! ### Basic numeric and list helpers (numpy primitives) -/

/-- A 2D numpy array of scalars. -/
abbrev Grid := List (List ℚ)

/-- numpy `.shape` of a 2D array: (rows, columns). -/
def gridShape (g : Grid) : ℕ × ℕ := (g.length, (g.headD []).length)

/-- Elementwise map over a 2D array. -/
def gridMap (f : ℚ → ℚ) (g : Grid) : Grid := g.map (List.map f)

/-- Row-major flattening of a 2D array. -/
def gridValues (g : Grid) : List ℚ := g.flatten

/-- numpy `np.min` over a flat list (its value on an empty array, where numpy
raises, is never reached on the guarded paths and defaults to 0). -/
def listMinD (l : List ℚ) : ℚ := l.min?.getD 0

/-- numpy `np.max` over a flat list (same convention as `listMinD`). -/
def listMaxD (l : List ℚ) : ℚ := l.max?.getD 0

/-- numpy `np.mean` of a flat list. -/
def meanQ (l : List ℚ) : ℚ := l.sum / l.length

/-- numpy `np.abs(np.diff(l))`: absolute differences of consecutive entries. -/
def absDiffs : List ℚ → List ℚ
  | a :: b :: rest => |b - a| :: absDiffs (b :: rest)
  | _ => []

/-- numpy `np.percentile(l, 50)` (the median, averaging the two middle
entries of the sorted list when the length is even). -/
def percentile50 (l : List ℚ) : ℚ :=
  let s := l.insertionSort (· ≤ ·)
  let n := s.length
  if n % 2 = 1 then s.getD (n / 2) 0
  else (s.getD (n / 2 - 1) 0 + s.getD (n / 2) 0) / 2

/-- numpy `astype(np.uint8)` on a float value: truncation wrapped modulo 256.
Used only on nonnegative inputs in this development. -/
def uint8 (x : ℚ) : ℚ := ((Int.toNat ⌊x⌋) % 256 : ℕ)

/-- numpy `np.clip(x, lo, hi)`. -/
def clipQ (lo hi x : ℚ) : ℚ := min (max x lo) hi

/-! ### `backend/app/services/dicom_processor.py` — `read_dicom_series_bytes`

The per-file `pydicom.dcmread` call is external; its outcome for one input
byte string is modelled by `DicomParse`: the read raised (`failed`), parsed
without a `pixel_array` attribute (`noPixels`), or produced a dataset
(`ok`).  A dataset keeps exactly the attributes the function reads; a
missing optional DICOM attribute is `none` (Python `hasattr`/`getattr`
with default). -/

structure DicomObj where
  pixels : Grid
  rescaleSlope : Option ℚ
  rescaleIntercept : Option ℚ
  windowCenter : Option ℚ
  windowWidth : Option ℚ
  sliceThickness : Option ℚ
  pixelSpacing : Option (ℚ × ℚ)
  seriesDescription : String
  rows : ℕ
  cols : ℕ
  modality : String
  imagePositionZ : Option ℚ
  sliceLocation : Option ℚ
  instanceNumber : Option ℚ
deriving DecidableEq

inductive DicomParse where
  | failed (msg : String)
  | noPixels
  | ok (obj : DicomObj)
deriving DecidableEq

/-- Rescale step: `pixel_array * RescaleSlope + RescaleIntercept`, applied
only when both attributes are present. -/
def applyRescale (obj : DicomObj) (px : Grid) : Grid :=
  match obj.rescaleSlope, obj.rescaleIntercept with
  | some s, some b => gridMap (fun v => v * s + b) px
  | _, _ => px

/-- Window transform branch: clip to the window, map linearly to [0,1],
clip to [0,1], scale by 255 and cast to uint8. -/
def applyWindow (c w : ℚ) (px : Grid) : Grid :=
  let wmin := c - w / 2
  let wmax := c + w / 2
  let clipped := gridMap (clipQ wmin wmax) px
  let scaled := gridMap (fun v => (v - wmin) / (wmax - wmin)) clipped
  gridMap (fun v => uint8 (clipQ 0 1 v * 255)) scaled

/-- No-window branch: min–max stretch to [0,255] when max > min, otherwise
multiply by 255; in both branches cast to uint8
(`pixel_array.astype(np.uint8)`). -/
def normalizeNoWindow (px : Grid) : Grid :=
  let mn := listMinD (gridValues px)
  let mx := listMaxD (gridValues px)
  if 0 < mx - mn then
    gridMap (fun v => uint8 ((v - mn) / (mx - mn) * 255)) px
  else
    gridMap (fun v => uint8 (v * 255)) px

/-- Per-file pixel pipeline of the loop body: rescale, then window if both
window attributes are present, else the no-window normalization. -/
def processSlicePixels (obj : DicomObj) : Grid :=
  let px := applyRescale obj obj.pixels
  match obj.windowCenter, obj.windowWidth with
  | some c, some w => applyWindow c w px
  | _, _ => normalizeNoWindow px

/-- Slice-position resolution: `ImagePositionPatient[2]`, else
`SliceLocation`, else `InstanceNumber` defaulting to the loop index. -/
def resolvePosition (obj : DicomObj) (i : ℕ) : ℚ :=
  match obj.imagePositionZ with
  | some z => z
  | none =>
    match obj.sliceLocation with
    | some loc => loc
    | none => obj.instanceNumber.getD (i : ℚ)

structure SliceEntry where
  pixels : Grid
  position : ℚ
  index : ℕ
deriving DecidableEq

/-- The reading loop: index `i` enumerates the input files; a file that
fails to parse or has no pixel data is skipped (`continue`). -/
def collectSlices : ℕ → List DicomParse → List SliceEntry
  | _, [] => []
  | i, DicomParse.ok obj :: rest =>
    { pixels := processSlicePixels obj
      position := resolvePosition obj i
      index := i } :: collectSlices (i + 1) rest
  | i, _ :: rest => collectSlices (i + 1) rest

/-- The `series_metadata` dictionary built when `i == 0`. -/
structure SeriesMeta where
  sliceThickness : ℚ
  pixelSpacing : ℚ × ℚ
  seriesDescription : String
  rows : ℕ
  cols : ℕ
  modality : String
  windowCenter : Option ℚ
  windowWidth : Option ℚ
  rescaleSlope : ℚ
  rescaleIntercept : ℚ
deriving DecidableEq

/-- Python truthiness of `float(x) if x else None` applied to an optional
float: `0.0` is falsy and maps to `None`. -/
def pyTruthyQ : Option ℚ → Option ℚ
  | some v => if v = 0 then none else some v
  | none => none

def metaOf (obj : DicomObj) : SeriesMeta :=
  { sliceThickness := obj.sliceThickness.getD 1
    pixelSpacing := obj.pixelSpacing.getD (1, 1)
    seriesDescription := obj.seriesDescription
    rows := obj.rows
    cols := obj.cols
    modality := obj.modality
    windowCenter := pyTruthyQ obj.windowCenter
    windowWidth := pyTruthyQ obj.windowWidth
    rescaleSlope := obj.rescaleSlope.getD 1
    rescaleIntercept := obj.rescaleIntercept.getD 0 }

/-- `series_metadata` after the loop: set only during iteration `i == 0`,
and only when that first file parsed with pixel data; `none` models the
empty dictionary. -/
def seriesMetaOf (files : List DicomParse) : Option SeriesMeta :=
  match files with
  | DicomParse.ok obj :: _ => some (metaOf obj)
  | _ => none

/-- `np.stack(arrays, axis=0)`: requires a nonempty list of identically
shaped arrays, else raises. -/
def npStack (gs : List Grid) : Except String (List Grid) :=
  match gs with
  | [] => Except.error "need at least one array to stack"
  | g :: rest =>
    if rest.all (fun h => gridShape h = gridShape g) then Except.ok (g :: rest)
    else Except.error "all input arrays must have the same shape"

/-- Python `sorted(slices, key=lambda x: x[1])`: a stable sort on the
resolved position (insertion sort is stable, like CPython timsort). -/
def sortSlices (slices : List SliceEntry) : List SliceEntry :=
  slices.insertionSort (fun a b => a.position ≤ b.position)

structure SeriesResult where
  volume : List Grid
  seriesInfo : Option SeriesMeta
  volumeShape : ℕ × ℕ × ℕ
  numSlices : ℕ
deriving DecidableEq

/-- `DICOMProcessor.read_dicom_series_bytes`, after modelling the per-file
`dcmread` outcomes as `DicomParse` values.  `Except.error` models the
`{"success": False, "error": ...}` returns. -/
def read_dicom_series_bytes (files : List DicomParse) : Except String SeriesResult :=
  let slices := collectSlices 0 files
  match slices with
  | [] => Except.error "Нет DICOM файлов с изображениями"
  | _ :: _ =>
    let sortedSlices := sortSlices slices
    match npStack (sortedSlices.map (fun s => s.pixels)) with
    | Except.error e => Except.error ("Ошибка при создании объема: " ++ e)
    | Except.ok vol =>
      Except.ok
        { volume := vol
          seriesInfo := seriesMetaOf files
          volumeShape := (vol.length, (gridShape (vol.headD [])).1, (gridShape (vol.headD [])).2)
          numSlices := slices.length }

/-! ### `backend/app/services/zip_processor.py` — `ZIPProcessor.read_dicom_series`

The per-file `pydicom.dcmread` loop collects one record per successfully
read file (files that raise or lack pixel data are skipped); the input
below is that list of records.  `skimage.transform.resize` is an external
oracle. -/

structure ZipSlice where
  pixelArray : Grid
  sliceLocation : ℚ
  instanceNumber : ℤ
  rows : ℕ
  cols : ℕ
  pixelSpacing : ℚ × ℚ
  sliceThickness : ℚ
deriving DecidableEq

/-- Per-slice normalization to [0,1] inside the volume fill loop of
`read_dicom_series`; a constant slice is stored unchanged. -/
def zipNormalizeSlice (g : Grid) : Grid :=
  let mn := listMinD (gridValues g)
  let mx := listMaxD (gridValues g)
  if mn < mx then gridMap (fun v => (v - mn) / (mx - mn)) g else g

/-- `slices_data.sort(key=lambda x: x['slice_location'])` (stable). -/
def zipSort (l : List ZipSlice) : List ZipSlice :=
  l.insertionSort (fun a b => a.sliceLocation ≤ b.sliceLocation)

structure ZipSeriesResult where
  volume : List Grid
  spacing : ℚ × ℚ × ℚ
  numSlices : ℕ
deriving DecidableEq

/-- `ZIPProcessor.read_dicom_series` after the per-file reads: sort by
slice location, build the volume (resizing mismatched slices via the
external `resizeOp`, then normalizing each slice), and derive the spacing
triple; the z-spacing is the mean absolute consecutive difference of the
sorted slice locations when there are at least two slices, else the first
sorted slice's declared thickness. -/
def zipReadSeries (resizeOp : ℕ × ℕ → Grid → Grid) (slicesData : List ZipSlice) :
    Except String ZipSeriesResult :=
  match zipSort slicesData with
  | [] => Except.error "Не найдено валидных DICOM файлов"
  | first :: restSorted =>
    let targetShape := (first.rows, first.cols)
    let volume := (first :: restSorted).map (fun s =>
      let arr :=
        if gridShape s.pixelArray ≠ targetShape then resizeOp targetShape s.pixelArray
        else s.pixelArray
      zipNormalizeSlice arr)
    let avgSliceSpacing :=
      if 1 < slicesData.length then
        let diffs := absDiffs ((first :: restSorted).map (fun s => s.sliceLocation))
        if 0 < diffs.length then meanQ diffs else first.sliceThickness
      else first.sliceThickness
    Except.ok
      { volume := volume
        spacing := (first.pixelSpacing.1, first.pixelSpacing.2, avgSliceSpacing)
        numSlices := slicesData.length }

/-! ### `model/model_utils.py` — shape behaviour of `predict_slice`

The keras model itself is external; what the claims need is the shape
discipline of `preprocess_slice`/`postprocess_mask`.  `cv2.resize(src,
dsize)` interprets `dsize` as (width, height) while numpy shapes are
(rows, columns) = (height, width): a resize to `dsize` returns an array of
shape `(dsize.2, dsize.1)`. -/

def cv2ResizeShape (dsize : ℕ × ℕ) : ℕ × ℕ := (dsize.2, dsize.1)

/-- `preprocess_slice`: resize to 512×512 unless already that shape
(the batch/channel axes are dropped again before `postprocess_mask`). -/
def preprocess_slice_shape (s : ℕ × ℕ) : ℕ × ℕ :=
  if s ≠ (512, 512) then cv2ResizeShape (512, 512) else s

/-- The model maps a 512×512 input slice to a prediction of the same
spatial shape (its declared input/output shapes). -/
def model_predict_shape (s : ℕ × ℕ) : ℕ × ℕ := s

/-- `postprocess_mask`: `cv2.resize(mask, original_shape)` unless the
original shape is 512×512; binarization does not change the shape. -/
def postprocess_mask_shape (predShape originalShape : ℕ × ℕ) : ℕ × ℕ :=
  if originalShape ≠ (512, 512) then cv2ResizeShape originalShape else predShape

/-- Shape of `predict_slice(image_slice)` as a function of the input
slice's numpy shape. -/
def predict_slice_shape (originalShape : ℕ × ℕ) : ℕ × ℕ :=
  postprocess_mask_shape (model_predict_shape (preprocess_slice_shape originalShape)) originalShape

/-! ### `backend/app/services/segmentation_service.py` — `segment_volume`

(The second, effective definition of `segment_volume` in the class body.)
`model.predict_slice` is an oracle that may raise; the whole loop sits in
one `try`, so the first raising slice aborts the function into its
`except`, which returns `{'success': False, 'error': ...}`. -/

/-- The `for i in range(...): masks.append(self.model.predict_slice(...))`
loop: sequential, first raise propagates. -/
def mapPredict (predict : Grid → Except String Grid) : List Grid → Except String (List Grid)
  | [] => Except.ok []
  | g :: rest =>
    match predict g with
    | Except.error e => Except.error e
    | Except.ok mask =>
      match mapPredict predict rest with
      | Except.error e => Except.error e
      | Except.ok masks => Except.ok (mask :: masks)

structure SegOk where
  masks3d : List Grid
  totalSlices : ℕ
  liverPixelsTotal : ℕ
  liverVolumeRatio : ℚ
deriving DecidableEq

/-- `SegmentationService.segment_volume` on a volume given as a list of
slices; the masks keep the dtype conversion to uint8 implicit (the oracle
already returns binary masks). -/
def segment_volume (predict : Grid → Except String Grid) (volume : List Grid) :
    Except String SegOk :=
  match mapPredict predict volume with
  | Except.error e => Except.error e
  | Except.ok masks =>
    let allValues := (masks.map gridValues).flatten
    let liverPixels := (allValues.filter (0 < ·)).length
    Except.ok
      { masks3d := masks
        totalSlices := volume.length
        liverPixelsTotal := liverPixels
        liverVolumeRatio :=
          if 0 < allValues.length then (liverPixels : ℚ) / allValues.length else 0 }

/-! ### `backend/app/services/reconstruction_service.py`

Meshes are pyvista objects; the embedding keeps the observations the code
reads (`n_points`, `n_cells`, `volume`, `area`, `center`, `bounds`).
Contouring, surface reconstruction and the repair stages are pyvista
operations: oracles that may raise.  The `(z,y,x) → (x,y,z)` transpose and
the Fortran-order flatten only permute the scalar field; every use the
code makes of it afterwards (`max`, `> 0` filter, median, `> threshold`
filter) is permutation-invariant, so the embedding keeps the flat data in
its given order. -/

structure Mesh where
  nPoints : ℕ
  nCells : ℕ
  volume : ℚ
  area : ℚ
  center : ℚ × ℚ × ℚ
  bounds : List ℚ
deriving DecidableEq

/-- pyvista mesh-repair operations used by `_postprocess_mesh`. -/
structure MeshOps where
  extractLargest : Mesh → Except String Mesh
  fillHoles : ℚ → Mesh → Except String Mesh
  smoothOp : ℕ → ℚ → Mesh → Except String Mesh
  decimate : ℚ → Mesh → Except String Mesh

/-- `mesh.save(...)` for the two export formats; returns the path written. -/
structure ExportEnv where
  saveStl : Mesh → Except String String
  savePly : Mesh → Except String String

/-- All external pyvista operations reached from `reconstruct_from_masks`:
`grid.contour([t])`, `grid.extract_surface()`, and point-cloud
`reconstruct_surface()` (the latter applied to the voxels above the
threshold, represented by their scalar values). -/
structure ReconEnv where
  contour : ℚ → Except String Mesh
  extractSurfaceOp : Except String Mesh
  reconstructSurfaceOp : List ℚ → Except String Mesh
  ops : MeshOps
  exp : ExportEnv

/-- One fail-safe stage of `_postprocess_mesh`: on an exception the mesh
from before the stage is kept. -/
def tryStage (stage : Except String Mesh) (mesh : Mesh) : Mesh :=
  match stage with
  | Except.ok m => m
  | Except.error _ => mesh

/-- `ReconstructionService._postprocess_mesh`: four independently fail-safe
stages; a zero-vertex mesh passes through untouched. -/
def postprocess_mesh (ops : MeshOps) (mesh : Mesh) : Mesh :=
  if mesh.nPoints = 0 then mesh
  else
    let m1 := if 1 < mesh.nCells then tryStage (ops.extractLargest mesh) mesh else mesh
    let m2 := tryStage (ops.fillHoles 1000 m1) m1
    let m3 := if 100 < m2.nCells then tryStage (ops.smoothOp 15 (1/10) m2) m2 else m2
    if 50000 < m3.nCells then tryStage (ops.decimate (30000 / (m3.nCells : ℚ)) m3) m3 else m3

structure Spacing where
  x : ℚ
  y : ℚ
  z : ℚ
deriving DecidableEq

structure Metrics where
  volume_ml : ℚ
  volume_mm3 : ℚ
  surface_area_cm2 : ℚ
  surface_area_mm2 : ℚ
  center_of_mass : ℚ × ℚ × ℚ
  spacing_x : ℚ
  spacing_y : ℚ
  spacing_z : ℚ
  bounding_box : List ℚ
deriving DecidableEq

/-- `ReconstructionService._get_empty_metrics`. -/
def get_empty_metrics (s : Spacing) : Metrics :=
  { volume_ml := 0, volume_mm3 := 0, surface_area_cm2 := 0, surface_area_mm2 := 0
    center_of_mass := (0, 0, 0)
    spacing_x := s.x, spacing_y := s.y, spacing_z := s.z
    bounding_box := [0, 0, 0, 0, 0, 0] }

/-- `ReconstructionService._calculate_metrics`: physical volume with the
plausibility escape hatch (above 10000 mL the spacing multiplier is
dropped), area scaled by the in-plane spacings only.  No embedded
operation can raise, so the surrounding `try` never reaches its `except`
branch. -/
def calculate_metrics (mesh : Mesh) (s : Spacing) : Metrics :=
  if mesh.nPoints = 0 then get_empty_metrics s
  else
    let voxelVolume := s.x * s.y * s.z
    let volumeMM3 := mesh.volume * voxelVolume
    let volumeML := volumeMM3 / 1000
    let corrected :=
      if 5000 < volumeML then
        if 10000 < volumeML then (mesh.volume, mesh.volume / 1000)
        else (volumeMM3, volumeML)
      else (volumeMM3, volumeML)
    let surfaceAreaMM2 := mesh.area * s.x * s.y
    { volume_ml := corrected.2
      volume_mm3 := corrected.1
      surface_area_cm2 := surfaceAreaMM2 / 100
      surface_area_mm2 := surfaceAreaMM2
      center_of_mass := mesh.center
      spacing_x := s.x, spacing_y := s.y, spacing_z := s.z
      bounding_box := mesh.bounds }

/-- `ReconstructionService._export_mesh`: both saves sit in one `try`; any
exception discards the dictionary built so far and returns `{}`. -/
def export_mesh (env : ExportEnv) (mesh : Mesh) : List (String × String) :=
  match env.saveStl mesh with
  | Except.error _ => []
  | Except.ok stlPath =>
    match env.savePly mesh with
    | Except.error _ => []
    | Except.ok plyPath => [("stl", stlPath), ("ply", plyPath)]

/-- The inner `try` block of step 7: contour at the threshold, retry at 0.3
when empty and the threshold is positive, then retry at the median of the
nonzero scalar values when still empty and some value is nonzero. -/
def contourLadder (env : ReconEnv) (vals : List ℚ) (t : ℚ) : Except String Mesh :=
  match env.contour t with
  | Except.error e => Except.error e
  | Except.ok mesh0 =>
    match (if mesh0.nPoints = 0 ∧ 0 < t then env.contour (3/10) else Except.ok mesh0) with
    | Except.error e => Except.error e
    | Except.ok mesh1 =>
      if mesh1.nPoints = 0 then
        let nonzeroValues := vals.filter (0 < ·)
        if 0 < nonzeroValues.length then env.contour (percentile50 nonzeroValues)
        else Except.ok mesh1
      else Except.ok mesh1

/-- The `except` of step 7: a raising contour falls back to
`grid.extract_surface()`. -/
def contourWithFallback (env : ReconEnv) (vals : List ℚ) (t : ℚ) : Except String Mesh :=
  match contourLadder env vals t with
  | Except.ok m => Except.ok m
  | Except.error _ => env.extractSurfaceOp

/-- Steps 7 and the zero-vertex rescue: when the contoured mesh is still
empty, reconstruct a surface from the voxels strictly above the primary
threshold, and raise `ValueError` when there are none. -/
def extract_surface_ladder (env : ReconEnv) (vals : List ℚ) (t : ℚ) : Except String Mesh :=
  match contourWithFallback env vals t with
  | Except.error e => Except.error e
  | Except.ok mesh =>
    if mesh.nPoints = 0 then
      let aboveThreshold := vals.filter (t < ·)
      if 0 < aboveThreshold.length then env.reconstructSurfaceOp aboveThreshold
      else Except.error "Нет данных для создания поверхности"
    else Except.ok mesh

/-- A generic n-d numpy array: shape plus flattened data. -/
structure NdArray where
  shape : List ℕ
  data : List ℚ
deriving DecidableEq

/-- Step 2: `astype(float32)` then divide by 255 when the maximum exceeds
1; `np.max` on a zero-size array raises. -/
def rescaleMaskValues (data : List ℚ) : Except String (List ℚ) :=
  match data.max? with
  | none => Except.error "zero-size array to reduction operation"
  | some mx => Except.ok (if 1 < mx then data.map (fun v => v / 255) else data)

/-- The successful payload of `reconstruct_from_masks` (mesh_info, metrics
and export paths). -/
structure ReconPayload where
  numVertices : ℕ
  numFaces : ℕ
  bounds : List ℚ
  metrics : Metrics
  exportPaths : List (String × String)
deriving DecidableEq

/-- Steps 8–10 applied to the extracted mesh. -/
def assemblePayload (env : ReconEnv) (s : Spacing) (mesh0 : Mesh) : ReconPayload :=
  let mesh := postprocess_mesh env.ops mesh0
  { numVertices := mesh.nPoints
    numFaces := mesh.nCells
    bounds := mesh.bounds
    metrics := calculate_metrics mesh s
    exportPaths := export_mesh env.exp mesh }

/-- Body of the outer `try` of `reconstruct_from_masks`: the 3D-shape
check, value rescale, surface extraction, then post-processing, metrics
and export. -/
def reconBody (env : ReconEnv) (masks : NdArray) (s : Spacing) (t : ℚ) :
    Except String ReconPayload :=
  if masks.shape.length ≠ 3 then Except.error "Ожидается 3D массив"
  else
    match rescaleMaskValues masks.data with
    | Except.error e => Except.error e
    | Except.ok vals =>
      match extract_surface_ladder env vals t with
      | Except.error e => Except.error e
      | Except.ok mesh0 => Except.ok (assemblePayload env s mesh0)

/-- The dictionary returned by `reconstruct_from_masks`: either the success
record or `{"success": False, "error": str(e)}` from the outer `except`. -/
inductive ReconResult where
  | success (payload : ReconPayload)
  | failure (error : String)
deriving DecidableEq

/-- `ReconstructionService.reconstruct_from_masks`. -/
def reconstruct_from_masks (env : ReconEnv) (masks : NdArray) (s : Spacing) (t : ℚ) :
    ReconResult :=
  match reconBody env masks s t with
  | Except.ok payload => ReconResult.success payload
  | Except.error e => ReconResult.failure e

/-! ### Concrete instances used by witnesses and counterexamples -/

/-- A mesh with `n` vertices and faces and unit geometry. -/
def demoMesh (n : ℕ) : Mesh :=
  { nPoints := n, nCells := n, volume := 1, area := 1
    center := (0, 0, 0), bounds := [0, 1, 0, 1, 0, 1] }

/-- Repair stages that always raise (each is recovered per stage). -/
def failingOps : MeshOps :=
  { extractLargest := fun _ => Except.error "VTK error"
    fillHoles := fun _ _ => Except.error "VTK error"
    smoothOp := fun _ _ _ => Except.error "VTK error"
    decimate := fun _ _ => Except.error "VTK error" }

/-- Export environment where the first (stl) save succeeds and the second
(ply) save raises. -/
def plyFailExport : ExportEnv :=
  { saveStl := fun _ => Except.ok "/tmp/liver_3d_demo/model.stl"
    savePly := fun _ => Except.error "disk full" }

/-- Environment whose contour always yields a 4-vertex mesh. -/
def solidContourEnv : ReconEnv :=
  { contour := fun _ => Except.ok (demoMesh 4)
    extractSurfaceOp := Except.error "not reached"
    reconstructSurfaceOp := fun _ => Except.ok (demoMesh 3)
    ops := failingOps
    exp := plyFailExport }

/-- A minimal dataset: pixel grid, explicit position, no optional
attributes. -/
def plainObj (px : Grid) (rows cols : ℕ) (posZ : ℚ) : DicomObj :=
  { pixels := px, rescaleSlope := none, rescaleIntercept := none
    windowCenter := none, windowWidth := none, sliceThickness := none
    pixelSpacing := none, seriesDescription := "", rows := rows, cols := cols
    modality := "", imagePositionZ := some posZ, sliceLocation := none
    instanceNumber := none }

/-- Two parsed files whose pixel arrays have different shapes (1×1 and
1×2), which makes `np.stack` raise. -/
def mismatchedFiles : List DicomParse :=
  [DicomParse.ok (plainObj [[0]] 1 1 0), DicomParse.ok (plainObj [[0, 0]] 1 2 1)]

/-- A series whose first file fails to parse while the second succeeds. -/
def firstFailedFiles : List DicomParse :=
  [DicomParse.failed "Invalid DICOM", DicomParse.ok (plainObj [[0]] 1 1 0)]

/-- The result of reading `firstFailedFiles`. -/
def firstFailedResult : SeriesResult :=
  { volume := [[[0]]], seriesInfo := none, volumeShape := (1, 1, 1), numSlices := 1 }

/-- A segmentation oracle that raises exactly on the slice `[[1]]` and
returns a zero mask elsewhere. -/
def predictFailOnOne : Grid → Except String Grid := fun g =>
  if g = [[1]] then Except.error "model failure" else Except.ok (gridMap (fun _ => 0) g)

/-- A mesh whose raw geometric volume is large enough to trip the
implausibility correction at unit spacing. -/
def bigMesh : Mesh :=
  { nPoints := 8, nCells := 12, volume := 20000000, area := 6
    center := (0, 0, 0), bounds := [0, 1, 0, 1, 0, 1] }

/-- A 1×1 zip slice at a given location with a given declared thickness. -/
def zipSliceAt (loc th : ℚ) : ZipSlice :=
  { pixelArray := [[0]], sliceLocation := loc, instanceNumber := 1
    rows := 1, cols := 1, pixelSpacing := (1, 1), sliceThickness := th }

/-- Identity resize oracle (never needed on same-shape slices). -/
def idResize : ℕ × ℕ → Grid → Grid := fun _ g => g

/-- A 1×1×1 mask volume holding a single set voxel. -/
def masksCube : NdArray := { shape := [1, 1, 1], data := [1] }

/-- A 2×2 (2-dimensional) mask array, rejected by the 3D check. -/
def masksFlat : NdArray := { shape := [2, 2], data := [1, 0, 0, 1] }

/-- The series read result for two 1×1 zip slices at locations 0 and 3. -/
def zipDemoResult : ZipSeriesResult :=
  { volume := [[[0]], [[0]]], spacing := (1, 1, 3), numSlices := 2 }

/-- The payload produced by `solidContourEnv` on the single-voxel cube. -/
def solidPayload : ReconPayload := assemblePayload solidContourEnv ⟨1, 1, 1⟩ (demoMesh 4)

/-! ### Helper lemmas -/

theorem gridMap_congr (f g : ℚ → ℚ) (px : Grid)
    (h : ∀ v ∈ gridValues px, f v = g v) : gridMap f px = gridMap g px := by
  simp only [gridValues] at h
  unfold gridMap
  refine List.map_congr_left (fun row hrow => ?_)
  refine List.map_congr_left (fun v hv => ?_)
  exact h v (List.mem_flatten_of_mem hrow hv)

theorem listMinD_le_of_mem (l : List ℚ) (v : ℚ) (hv : v ∈ l) : listMinD l ≤ v := by
  obtain ⟨m, hm⟩ := Option.isSome_iff_exists.mp (List.isSome_min?_of_mem hv)
  have hle := (List.le_min?_iff (fun _ _ _ => le_min_iff) hm).mp (le_refl m)
  simpa [listMinD, hm] using hle v hv

theorem le_listMaxD_of_mem (l : List ℚ) (v : ℚ) (hv : v ∈ l) : v ≤ listMaxD l := by
  obtain ⟨m, hm⟩ := Option.isSome_iff_exists.mp (List.isSome_max?_of_mem hv)
  have hle := (List.max?_le_iff (fun _ _ _ => max_le_iff) hm).mp (le_refl m)
  simpa [listMaxD, hm] using hle v hv

theorem listMinD_of_const (l : List ℚ) (c : ℚ) (hne : l ≠ []) (h : ∀ v ∈ l, v = c) :
    listMinD l = c := by
  cases hm : l.min? with
  | none => exact absurd (List.min?_eq_none_iff.mp hm) hne
  | some m =>
    have hmem : m ∈ l := List.min?_mem min_choice hm
    simp [listMinD, hm, h m hmem]

theorem listMaxD_of_const (l : List ℚ) (c : ℚ) (hne : l ≠ []) (h : ∀ v ∈ l, v = c) :
    listMaxD l = c := by
  cases hm : l.max? with
  | none => exact absurd (List.max?_eq_none_iff.mp hm) hne
  | some m =>
    have hmem : m ∈ l := List.max?_mem max_choice hm
    simp [listMaxD, hm, h m hmem]

theorem absDiffs_length (l : List ℚ) : (absDiffs l).length = l.length - 1 := by
  match l with
  | [] => rfl
  | [a] => rfl
  | a :: b :: rest =>
    have ih := absDiffs_length (b :: rest)
    simp [absDiffs] at ih ⊢
    omega

theorem mapPredict_error_of_mem (predict : Grid → Except String Grid)
    (volume : List Grid) (g : Grid) (e : String)
    (hg : g ∈ volume) (he : predict g = Except.error e) :
    ∃ msg, mapPredict predict volume = Except.error msg := by
  induction volume with
  | nil => cases hg
  | cons h0 rest ih =>
    cases List.mem_cons.mp hg with
    | inl heq =>
      subst heq
      exact ⟨e, by simp [mapPredict, he]⟩
    | inr hmem =>
      cases hp : predict h0 with
      | error e0 => exact ⟨e0, by simp [mapPredict, hp]⟩
      | ok mask =>
        obtain ⟨msg, hmsg⟩ := ih hmem
        exact ⟨msg, by simp [mapPredict, hp, hmsg]⟩

theorem export_mesh_cases (env : ExportEnv) (mesh : Mesh) :
    export_mesh env mesh = [] ∨
      ∃ p q, export_mesh env mesh = [("stl", p), ("ply", q)] := by
  unfold export_mesh
  cases hs : env.saveStl mesh with
  | error e => exact Or.inl rfl
  | ok p =>
    cases hp : env.savePly mesh with
    | error e => exact Or.inl rfl
    | ok q => exact Or.inr ⟨p, q, rfl⟩

theorem reconBody_ok_payload (env : ReconEnv) (masks : NdArray) (s : Spacing) (t : ℚ)
    (payload : ReconPayload) (h : reconBody env masks s t = Except.ok payload) :
    ∃ mesh0, payload = assemblePayload env s mesh0 := by
  unfold reconBody at h
  split at h
  · cases h
  · split at h
    · cases h
    · split at h
      · cases h
      · exact ⟨_, (Except.ok.injEq _ _).mp h |>.symm⟩

theorem volume_mm3_of_plausible (mesh : Mesh) (s : Spacing)
    (hne : mesh.nPoints ≠ 0)
    (h : mesh.volume * (s.x * s.y * s.z) / 1000 ≤ 10000) :
    (calculate_metrics mesh s).volume_mm3 = mesh.volume * (s.x * s.y * s.z) := by
  simp only [calculate_metrics, hne, if_false]
  split_ifs with h5 h10
  · exact absurd h (by linarith)
  · rfl
  · rfl

theorem contourLadder_eq (env : ReconEnv) (vals : List ℚ) (t : ℚ) (m1 m2 m3 : Mesh)
    (ht : 0 < t)
    (h1 : env.contour t = Except.ok m1)
    (h2 : env.contour (3/10) = Except.ok m2)
    (h3 : env.contour (percentile50 (vals.filter (0 < ·))) = Except.ok m3) :
    contourLadder env vals t = Except.ok
      (if m1.nPoints = 0 then
        (if m2.nPoints = 0 then
          (if 0 < (vals.filter (0 < ·)).length then m3 else m2)
        else m2)
      else m1) := by
  by_cases hm1 : m1.nPoints = 0
  · by_cases hm2 : m2.nPoints = 0
    · by_cases hnz : 0 < (vals.filter (0 < ·)).length
      · simp [contourLadder, h1, h2, h3, hm1, hm2, hnz, ht]
      · simp [contourLadder, h1, h2, hm1, hm2, hnz, ht]
    · simp [contourLadder, h1, h2, hm1, hm2, ht]
  · simp [contourLadder, h1, hm1]

/-! ### Claim theorems -/

/-- C1: for every mask scalar field handed to surface extraction with a
positive primary threshold (default 0.5), the fallback ladder runs in the
fixed order — contour at the primary threshold, contour at 0.3, contour at
the median of the nonzero scalar values (only when some value is nonzero),
then point-cloud reconstruction from the voxels exceeding the primary
threshold — each later step only when every earlier step returned a mesh
with zero vertices; and when, at the final step, no voxel exceeds the
primary threshold, extraction raises instead of returning an empty mesh as
success. -/
theorem extraction_ladder_spec (env : ReconEnv) (vals : List ℚ) (t : ℚ) (m1 m2 m3 : Mesh)
    (ht : 0 < t)
    (h1 : env.contour t = Except.ok m1)
    (h2 : env.contour (3/10) = Except.ok m2)
    (h3 : env.contour (percentile50 (vals.filter (0 < ·))) = Except.ok m3) :
    (m1.nPoints ≠ 0 → extract_surface_ladder env vals t = Except.ok m1) ∧
    (m1.nPoints = 0 → m2.nPoints ≠ 0 →
      extract_surface_ladder env vals t = Except.ok m2) ∧
    (m1.nPoints = 0 → m2.nPoints = 0 → 0 < (vals.filter (0 < ·)).length →
      m3.nPoints ≠ 0 → extract_surface_ladder env vals t = Except.ok m3) ∧
    (m1.nPoints = 0 → m2.nPoints = 0 →
      ((vals.filter (0 < ·)).length = 0 ∨ m3.nPoints = 0) →
      0 < (vals.filter (t < ·)).length →
      extract_surface_ladder env vals t =
        env.reconstructSurfaceOp (vals.filter (t < ·))) ∧
    (m1.nPoints = 0 → m2.nPoints = 0 →
      ((vals.filter (0 < ·)).length = 0 ∨ m3.nPoints = 0) →
      (vals.filter (t < ·)).length = 0 →
      extract_surface_ladder env vals t =
        Except.error "Нет данных для создания поверхности") := by
  have hlad := contourLadder_eq env vals t m1 m2 m3 ht h1 h2 h3
  refine ⟨?_, ?_, ?_, ?_, ?_⟩
  · intro hm1
    simp [extract_surface_ladder, contourWithFallback, hlad, hm1]
  · intro hm1 hm2
    simp [extract_surface_ladder, contourWithFallback, hlad, hm1, hm2]
  · intro hm1 hm2 hnz hm3
    simp [extract_surface_ladder, contourWithFallback, hlad, hm1, hm2, hnz, hm3]
  · intro hm1 hm2 hdisj habove
    cases hdisj with
    | inl hz =>
      simp [extract_surface_ladder, contourWithFallback, hlad, hm1, hm2, hz,
        Nat.pos_iff_ne_zero.mp habove]
    | inr hm3 =>
      by_cases hnz : 0 < (vals.filter (0 < ·)).length
      · simp [extract_surface_ladder, contourWithFallback, hlad, hm1, hm2, hnz, hm3,
          Nat.pos_iff_ne_zero.mp habove]
      · simp [extract_surface_ladder, contourWithFallback, hlad, hm1, hm2, hnz,
          Nat.pos_iff_ne_zero.mp habove]
  · intro hm1 hm2 hdisj habove
    cases hdisj with
    | inl hz =>
      simp [extract_surface_ladder, contourWithFallback, hlad, hm1, hm2, hz, habove]
    | inr hm3 =>
      by_cases hnz : 0 < (vals.filter (0 < ·)).length
      · simp [extract_surface_ladder, contourWithFallback, hlad, hm1, hm2, hnz, hm3, habove]
      · simp [extract_surface_ladder, contourWithFallback, hlad, hm1, hm2, hnz, habove]

/-- C1 witness: the ladder specification instantiated at a concrete
environment whose contour always returns a 4-vertex mesh, a singleton
scalar field and threshold 1. -/
theorem extraction_ladder_spec_witness :
    ((0:ℚ) < 1 ∧
      solidContourEnv.contour 1 = Except.ok (demoMesh 4) ∧
      solidContourEnv.contour (3/10) = Except.ok (demoMesh 4) ∧
      solidContourEnv.contour (percentile50 (([1] : List ℚ).filter (0 < ·))) =
        Except.ok (demoMesh 4)) ∧
    (((demoMesh 4).nPoints ≠ 0 →
        extract_surface_ladder solidContourEnv [1] 1 = Except.ok (demoMesh 4)) ∧
      ((demoMesh 4).nPoints = 0 → (demoMesh 4).nPoints ≠ 0 →
        extract_surface_ladder solidContourEnv [1] 1 = Except.ok (demoMesh 4)) ∧
      ((demoMesh 4).nPoints = 0 → (demoMesh 4).nPoints = 0 →
        0 < (([1] : List ℚ).filter (0 < ·)).length → (demoMesh 4).nPoints ≠ 0 →
        extract_surface_ladder solidContourEnv [1] 1 = Except.ok (demoMesh 4)) ∧
      ((demoMesh 4).nPoints = 0 → (demoMesh 4).nPoints = 0 →
        ((([1] : List ℚ).filter (0 < ·)).length = 0 ∨ (demoMesh 4).nPoints = 0) →
        0 < (([1] : List ℚ).filter (1 < ·)).length →
        extract_surface_ladder solidContourEnv [1] 1 =
          solidContourEnv.reconstructSurfaceOp (([1] : List ℚ).filter (1 < ·))) ∧
      ((demoMesh 4).nPoints = 0 → (demoMesh 4).nPoints = 0 →
        ((([1] : List ℚ).filter (0 < ·)).length = 0 ∨ (demoMesh 4).nPoints = 0) →
        (([1] : List ℚ).filter (1 < ·)).length = 0 →
        extract_surface_ladder solidContourEnv [1] 1 =
          Except.error "Нет данных для создания поверхности")) :=
  ⟨⟨by norm_num, rfl, rfl, rfl⟩,
    extraction_ladder_spec solidContourEnv [1] 1 (demoMesh 4) (demoMesh 4) (demoMesh 4)
      (by norm_num) rfl rfl rfl⟩

/-- C2: for a series of at least two successfully read slices, the
z-spacing of the assembled volume is the mean of the absolute differences
of consecutive resolved (sorted) slice positions; for a single-slice
series it is that slice's declared thickness. -/
theorem zspacing_spec (resizeOp : ℕ × ℕ → Grid → Grid) (slicesData : List ZipSlice)
    (r : ZipSeriesResult)
    (hr : zipReadSeries resizeOp slicesData = Except.ok r) :
    (2 ≤ slicesData.length →
      r.spacing.2.2 =
        meanQ (absDiffs ((zipSort slicesData).map (fun s => s.sliceLocation)))) ∧
    (∀ one : ZipSlice, slicesData = [one] → r.spacing.2.2 = one.sliceThickness) := by
  constructor
  · intro h2
    cases hs : zipSort slicesData with
    | nil =>
      have hlen : (zipSort slicesData).length = slicesData.length :=
        List.length_insertionSort _ _
      rw [hs] at hlen
      simp at hlen
      omega
    | cons first restSorted =>
      have hlen : (first :: restSorted).length = slicesData.length := by
        rw [← hs]; exact List.length_insertionSort _ _
      have hlen1 : 1 < slicesData.length := by omega
      have hdlen :
          0 < (absDiffs (List.map (fun s => s.sliceLocation) (first :: restSorted))).length := by
        rw [absDiffs_length]
        simp only [List.length_map]
        simp only [List.length_cons] at hlen ⊢
        omega
      rw [zipReadSeries, hs] at hr
      simp only [if_pos hlen1, if_pos hdlen, Except.ok.injEq] at hr
      rw [← hr]
  · intro one hone
    subst hone
    have hz : zipSort [one] = [one] := rfl
    rw [zipReadSeries, hz] at hr
    simp only [List.length_singleton, Nat.lt_irrefl, if_false, Except.ok.injEq] at hr
    rw [← hr]

/-- C2 witness: two 1×1 slices at locations 0 and 3; the mean of the one
absolute difference is 3. -/
theorem zspacing_spec_witness :
    zipReadSeries idResize [zipSliceAt 0 5, zipSliceAt 3 5] = Except.ok zipDemoResult ∧
    ((2 ≤ ([zipSliceAt 0 5, zipSliceAt 3 5] : List ZipSlice).length →
      zipDemoResult.spacing.2.2 =
        meanQ (absDiffs ((zipSort [zipSliceAt 0 5, zipSliceAt 3 5]).map
          (fun s => s.sliceLocation)))) ∧
    (∀ one : ZipSlice, [zipSliceAt 0 5, zipSliceAt 3 5] = [one] →
      zipDemoResult.spacing.2.2 = one.sliceThickness)) :=
  ⟨by norm_num [zipReadSeries, zipSort, List.insertionSort, List.orderedInsert,
      zipSliceAt, zipNormalizeSlice, gridValues, gridShape, listMinD, listMaxD,
      absDiffs, meanQ, idResize, zipDemoResult],
    zspacing_spec idResize [zipSliceAt 0 5, zipSliceAt 3 5] zipDemoResult
      (by norm_num [zipReadSeries, zipSort, List.insertionSort, List.orderedInsert,
        zipSliceAt, zipNormalizeSlice, gridValues, gridShape, listMinD, listMaxD,
        absDiffs, meanQ, idResize, zipDemoResult])⟩

/-- C3 counterexample: two parsed slices with mismatched pixel shapes make
the stacking step raise, and `read_dicom_series_bytes` reports failure
(`success: False`) instead of returning the slices in original-index
order. -/
theorem read_series_mismatch_fails :
    read_dicom_series_bytes mismatchedFiles =
      Except.error "Ошибка при создании объема: all input arrays must have the same shape" := by
  norm_num [read_dicom_series_bytes, mismatchedFiles, collectSlices, plainObj,
    processSlicePixels, applyRescale, normalizeNoWindow, gridValues, listMinD,
    listMaxD, gridMap, uint8, resolvePosition, sortSlices, List.insertionSort,
    List.orderedInsert, npStack, gridShape, seriesMetaOf]
  rfl

/-- C3 (amended): when stacking the sorted slices raises (for example on
inconsistent slice shapes), `read_dicom_series_bytes` returns the failure
record with the stacking error, rather than falling back to original-index
order; the ordering/stacking step does abort the series read. -/
theorem read_series_reports_stack_failure (files : List DicomParse) (e : String)
    (hne : collectSlices 0 files ≠ [])
    (hstack : npStack ((sortSlices (collectSlices 0 files)).map (fun s => s.pixels)) =
      Except.error e) :
    read_dicom_series_bytes files = Except.error ("Ошибка при создании объема: " ++ e) := by
  rw [read_dicom_series_bytes]
  cases hc : collectSlices 0 files with
  | nil => exact absurd hc hne
  | cons a rest =>
    rw [hc] at hstack
    simp only [hstack]

/-- C3 witness: the amended statement instantiated at the mismatched-shape
series. -/
theorem read_series_reports_stack_failure_witness :
    collectSlices 0 mismatchedFiles ≠ [] ∧
    npStack ((sortSlices (collectSlices 0 mismatchedFiles)).map (fun s => s.pixels)) =
      Except.error "all input arrays must have the same shape" ∧
    read_dicom_series_bytes mismatchedFiles =
      Except.error ("Ошибка при создании объема: " ++ "all input arrays must have the same shape") :=
  ⟨by
      norm_num [mismatchedFiles, collectSlices, plainObj, processSlicePixels,
        applyRescale, normalizeNoWindow, gridValues, listMinD, listMaxD, gridMap,
        uint8, resolvePosition]
      exact List.cons_ne_nil _ _,
    by norm_num [mismatchedFiles, collectSlices, plainObj, processSlicePixels,
      applyRescale, normalizeNoWindow, gridValues, listMinD, listMaxD, gridMap,
      uint8, resolvePosition, sortSlices, List.insertionSort, List.orderedInsert,
      npStack, gridShape],
    read_series_reports_stack_failure mismatchedFiles
      "all input arrays must have the same shape"
      (by
        norm_num [mismatchedFiles, collectSlices, plainObj, processSlicePixels,
          applyRescale, normalizeNoWindow, gridValues, listMinD, listMaxD, gridMap,
          uint8, resolvePosition]
        exact List.cons_ne_nil _ _)
      (by norm_num [mismatchedFiles, collectSlices, plainObj, processSlicePixels,
        applyRescale, normalizeNoWindow, gridValues, listMinD, listMaxD, gridMap,
        uint8, resolvePosition, sortSlices, List.insertionSort, List.orderedInsert,
        npStack, gridShape])⟩

/-- C4 counterexample: a segmentation oracle that raises on one slice of a
two-slice volume while succeeding on the other makes `segment_volume`
return failure for the whole volume; no all-zero mask is substituted. -/
theorem segment_volume_single_failure_aborts :
    (∃ e, predictFailOnOne [[1]] = Except.error e) ∧
    (∃ m, predictFailOnOne [[2]] = Except.ok m) ∧
    segment_volume predictFailOnOne [[[1]], [[2]]] = Except.error "model failure" :=
  ⟨⟨"model failure", by norm_num [predictFailOnOne]⟩,
    ⟨gridMap (fun _ => 0) [[2]], by norm_num [predictFailOnOne]⟩,
    by norm_num [segment_volume, mapPredict, predictFailOnOne]⟩

/-- C4 (amended): if the segmentation capability raises for any slice of
the volume, `segment_volume` reports failure for the whole volume (it
succeeds only when every slice segments successfully). -/
theorem segment_volume_fails_if_any_slice_fails (predict : Grid → Except String Grid)
    (volume : List Grid) (g : Grid) (e : String)
    (hg : g ∈ volume) (he : predict g = Except.error e) :
    ∃ msg, segment_volume predict volume = Except.error msg := by
  obtain ⟨msg, hmsg⟩ := mapPredict_error_of_mem predict volume g e hg he
  exact ⟨msg, by simp [segment_volume, hmsg]⟩

/-- C4 witness: the amended statement at the concrete failing oracle. -/
theorem segment_volume_fails_if_any_slice_fails_witness :
    ([[1]] : Grid) ∈ ([[[1]], [[2]]] : List Grid) ∧
    predictFailOnOne [[1]] = Except.error "model failure" ∧
    ∃ msg, segment_volume predictFailOnOne [[[1]], [[2]]] = Except.error msg :=
  ⟨by norm_num, by norm_num [predictFailOnOne],
    segment_volume_fails_if_any_slice_fails predictFailOnOne [[[1]], [[2]]] [[1]]
      "model failure" (by norm_num) (by norm_num [predictFailOnOne])⟩

/-- C5 counterexample: with the stl save succeeding and the ply save
raising (exactly one of the two formats fails), `_export_mesh` returns the
empty map — the entry for the format that succeeded is discarded. -/
theorem export_mesh_discards_partial_success :
    plyFailExport.saveStl (demoMesh 4) = Except.ok "/tmp/liver_3d_demo/model.stl" ∧
    (∃ e, plyFailExport.savePly (demoMesh 4) = Except.error e) ∧
    export_mesh plyFailExport (demoMesh 4) = [] :=
  ⟨rfl, ⟨"disk full", rfl⟩, rfl⟩

/-- C5 (amended): export is all-or-nothing, not per-format — every
successful reconstruction carries either both format entries or an empty
export map (a failure of either save discards the entry of the format that
succeeded; the reconstruction itself still reports success). -/
theorem export_map_all_or_nothing (env : ReconEnv) (masks : NdArray) (s : Spacing) (t : ℚ)
    (payload : ReconPayload)
    (h : reconstruct_from_masks env masks s t = ReconResult.success payload) :
    payload.exportPaths = [] ∨
      ∃ p q, payload.exportPaths = [("stl", p), ("ply", q)] := by
  rw [reconstruct_from_masks] at h
  cases hb : reconBody env masks s t with
  | error e => rw [hb] at h; cases h
  | ok pl =>
    rw [hb] at h
    have hpl : pl = payload := by
      have := (ReconResult.success.injEq _ _).mp h
      exact this
    subst hpl
    obtain ⟨mesh0, hm⟩ := reconBody_ok_payload env masks s t pl hb
    rw [hm]
    simpa [assemblePayload] using
      export_mesh_cases env.exp (postprocess_mesh env.ops mesh0)

/-- C5 witness: a successful reconstruction in which the ply save fails
and the export map is consequently empty. -/
theorem export_map_all_or_nothing_witness :
    reconstruct_from_masks solidContourEnv masksCube ⟨1, 1, 1⟩ 1 =
      ReconResult.success solidPayload ∧
    (solidPayload.exportPaths = [] ∨
      ∃ p q, solidPayload.exportPaths = [("stl", p), ("ply", q)]) :=
  ⟨by norm_num [reconstruct_from_masks, reconBody, rescaleMaskValues, masksCube,
      extract_surface_ladder, contourWithFallback, contourLadder, solidContourEnv,
      demoMesh, solidPayload],
    export_map_all_or_nothing solidContourEnv masksCube ⟨1, 1, 1⟩ 1 solidPayload
      (by norm_num [reconstruct_from_masks, reconBody, rescaleMaskValues, masksCube,
        extract_surface_ladder, contourWithFallback, contourLadder, solidContourEnv,
        demoMesh, solidPayload])⟩

/-- C6 counterexample: for a non-empty mesh whose raw volume is 2·10⁷,
scaling the x spacing from 1 to 2 leaves `volume_mm3` unchanged (both
configurations trip the >10000 mL implausibility fallback), so the metric
is not scaled by k = 2. -/
theorem volume_mm3_not_linear :
    bigMesh.nPoints ≠ 0 ∧
    (calculate_metrics bigMesh ⟨2, 1, 1⟩).volume_mm3 = 20000000 ∧
    (calculate_metrics bigMesh ⟨1, 1, 1⟩).volume_mm3 = 20000000 ∧
    (calculate_metrics bigMesh ⟨2, 1, 1⟩).volume_mm3 ≠
      2 * (calculate_metrics bigMesh ⟨1, 1, 1⟩).volume_mm3 := by
  norm_num [calculate_metrics, bigMesh]

/-- C6 (amended): for a fixed non-empty mesh, scaling exactly one spacing
axis by k > 0 scales `volume_mm3` by exactly k, provided neither the
original nor the scaled configuration trips the >10000 mL implausibility
fallback that recomputes the volume without the spacing multiplier. -/
theorem volume_mm3_scale_law (mesh : Mesh) (sx sy sz k : ℚ)
    (hne : mesh.nPoints ≠ 0) (hk : 0 < k)
    (h1 : mesh.volume * (sx * sy * sz) / 1000 ≤ 10000)
    (h2 : mesh.volume * (k * sx * sy * sz) / 1000 ≤ 10000) :
    (calculate_metrics mesh ⟨k * sx, sy, sz⟩).volume_mm3 =
      k * (calculate_metrics mesh ⟨sx, sy, sz⟩).volume_mm3 ∧
    (calculate_metrics mesh ⟨sx, k * sy, sz⟩).volume_mm3 =
      k * (calculate_metrics mesh ⟨sx, sy, sz⟩).volume_mm3 ∧
    (calculate_metrics mesh ⟨sx, sy, k * sz⟩).volume_mm3 =
      k * (calculate_metrics mesh ⟨sx, sy, sz⟩).volume_mm3 := by
  have hbase := volume_mm3_of_plausible mesh ⟨sx, sy, sz⟩ hne h1
  have hx := volume_mm3_of_plausible mesh ⟨k * sx, sy, sz⟩ hne (by
    simpa using h2)
  have hy := volume_mm3_of_plausible mesh ⟨sx, k * sy, sz⟩ hne (by
    show mesh.volume * (sx * (k * sy) * sz) / 1000 ≤ 10000
    have heq : mesh.volume * (sx * (k * sy) * sz) = mesh.volume * (k * sx * sy * sz) := by
      ring
    rw [heq]
    exact h2)
  have hz := volume_mm3_of_plausible mesh ⟨sx, sy, k * sz⟩ hne (by
    show mesh.volume * (sx * sy * (k * sz)) / 1000 ≤ 10000
    have heq : mesh.volume * (sx * sy * (k * sz)) = mesh.volume * (k * sx * sy * sz) := by
      ring
    rw [heq]
    exact h2)
  refine ⟨?_, ?_, ?_⟩
  · rw [hx, hbase]; ring
  · rw [hy, hbase]; ring
  · rw [hz, hbase]; ring

/-- C6 witness: the scale law at a small mesh and unit spacing, scaling by
k = 2, where both configurations stay below the fallback ceiling. -/
theorem volume_mm3_scale_law_witness :
    (demoMesh 4).nPoints ≠ 0 ∧ (0:ℚ) < 2 ∧
    (demoMesh 4).volume * ((1:ℚ) * 1 * 1) / 1000 ≤ 10000 ∧
    (demoMesh 4).volume * ((2:ℚ) * 1 * 1 * 1) / 1000 ≤ 10000 ∧
    ((calculate_metrics (demoMesh 4) ⟨2 * 1, 1, 1⟩).volume_mm3 =
      2 * (calculate_metrics (demoMesh 4) ⟨1, 1, 1⟩).volume_mm3 ∧
    (calculate_metrics (demoMesh 4) ⟨1, 2 * 1, 1⟩).volume_mm3 =
      2 * (calculate_metrics (demoMesh 4) ⟨1, 1, 1⟩).volume_mm3 ∧
    (calculate_metrics (demoMesh 4) ⟨1, 1, 2 * 1⟩).volume_mm3 =
      2 * (calculate_metrics (demoMesh 4) ⟨1, 1, 1⟩).volume_mm3) :=
  ⟨by norm_num [demoMesh], by norm_num, by norm_num [demoMesh], by norm_num [demoMesh],
    volume_mm3_scale_law (demoMesh 4) 1 1 1 2 (by norm_num [demoMesh]) (by norm_num)
      (by norm_num [demoMesh]) (by norm_num [demoMesh])⟩

/-- C7: `cv2.resize(mask, original_shape)` in `postprocess_mask` passes
the numpy shape (rows, columns) where OpenCV expects (width, height), so a
non-square slice gets a transposed mask: a 2×3 slice yields a 3×2 mask,
while a square 512×512 slice is unaffected.  The mask volume therefore
does not match the intensity volume's (N, height, width) shape for
non-square slices, contradicting the function's stated purpose of
restoring the original size. -/
theorem predict_slice_shape_transposed :
    predict_slice_shape (512, 512) = (512, 512) ∧
    predict_slice_shape (2, 3) = (3, 2) ∧
    ((3, 2) : ℕ × ℕ) ≠ (2, 3) := by
  refine ⟨rfl, rfl, by decide⟩

/-- C8 counterexample: a constant no-window slice of value 1 normalizes to
the all-255 grid, not the all-zero grid the claim requires. -/
theorem normalize_constant_slice_not_zero :
    normalizeNoWindow [[1, 1]] = [[255, 255]] ∧
    normalizeNoWindow [[1, 1]] ≠ [[0, 0]] := by
  norm_num [normalizeNoWindow, gridValues, listMinD, listMaxD, gridMap, uint8]
  constructor
  · norm_num [Int.toNat]
  · decide

/-- C8 (amended): in the no-window branch, a constant slice is multiplied
by 255 and cast to uint8 (all-zero exactly when that cast value is zero,
e.g. for the constant 0, but not in general); a non-constant slice is
min–max stretched, the pre-cast values lying in [0,255]. -/
theorem normalize_no_window_spec (px : Grid) (hne : gridValues px ≠ []) :
    (∀ c : ℚ, (∀ v ∈ gridValues px, v = c) →
      normalizeNoWindow px = gridMap (fun _ => uint8 (c * 255)) px ∧
      (c = 0 → normalizeNoWindow px = gridMap (fun _ => 0) px)) ∧
    (listMinD (gridValues px) < listMaxD (gridValues px) →
      normalizeNoWindow px = gridMap (fun v =>
        uint8 ((v - listMinD (gridValues px)) /
          (listMaxD (gridValues px) - listMinD (gridValues px)) * 255)) px ∧
      ∀ v ∈ gridValues px,
        0 ≤ (v - listMinD (gridValues px)) /
            (listMaxD (gridValues px) - listMinD (gridValues px)) * 255 ∧
        (v - listMinD (gridValues px)) /
            (listMaxD (gridValues px) - listMinD (gridValues px)) * 255 ≤ 255) := by
  constructor
  · intro c hconst
    have hmn : listMinD (gridValues px) = c := listMinD_of_const _ c hne hconst
    have hmx : listMaxD (gridValues px) = c := listMaxD_of_const _ c hne hconst
    have hbranch : normalizeNoWindow px = gridMap (fun v => uint8 (v * 255)) px := by
      rw [normalizeNoWindow, hmn, hmx]
      simp
    constructor
    · rw [hbranch]
      exact gridMap_congr _ _ px (fun v hv => by rw [hconst v hv])
    · intro hc0
      rw [hbranch]
      refine gridMap_congr _ _ px (fun v hv => ?_)
      rw [hconst v hv, hc0]
      norm_num [uint8]
  · intro hlt
    have hpos : (0:ℚ) < listMaxD (gridValues px) - listMinD (gridValues px) :=
      sub_pos.mpr hlt
    constructor
    · rw [normalizeNoWindow]
      simp [hpos]
    · intro v hv
      have hvmn : listMinD (gridValues px) ≤ v := listMinD_le_of_mem _ v hv
      have hvmx : v ≤ listMaxD (gridValues px) := le_listMaxD_of_mem _ v hv
      constructor
      · exact mul_nonneg (div_nonneg (by linarith) (le_of_lt hpos)) (by norm_num)
      · have hfrac : (v - listMinD (gridValues px)) /
            (listMaxD (gridValues px) - listMinD (gridValues px)) ≤ 1 := by
          rw [div_le_one hpos]
          linarith
        nlinarith [hfrac]

/-- C8 witness: the specification at the non-constant slice [[0, 2]]. -/
theorem normalize_no_window_spec_witness :
    gridValues [[0, 2]] ≠ [] ∧
    ((∀ c : ℚ, (∀ v ∈ gridValues [[0, 2]], v = c) →
      normalizeNoWindow [[0, 2]] = gridMap (fun _ => uint8 (c * 255)) [[0, 2]] ∧
      (c = 0 → normalizeNoWindow [[0, 2]] = gridMap (fun _ => 0) [[0, 2]])) ∧
    (listMinD (gridValues [[0, 2]]) < listMaxD (gridValues [[0, 2]]) →
      normalizeNoWindow [[0, 2]] = gridMap (fun v =>
        uint8 ((v - listMinD (gridValues [[0, 2]])) /
          (listMaxD (gridValues [[0, 2]]) - listMinD (gridValues [[0, 2]])) * 255)) [[0, 2]] ∧
      ∀ v ∈ gridValues [[0, 2]],
        0 ≤ (v - listMinD (gridValues [[0, 2]])) /
            (listMaxD (gridValues [[0, 2]]) - listMinD (gridValues [[0, 2]])) * 255 ∧
        (v - listMinD (gridValues [[0, 2]])) /
            (listMaxD (gridValues [[0, 2]]) - listMinD (gridValues [[0, 2]])) * 255 ≤ 255)) :=
  ⟨by
      norm_num [gridValues]
      exact List.cons_ne_nil _ _,
    normalize_no_window_spec [[0, 2]] (by
      norm_num [gridValues]
      exact List.cons_ne_nil _ _)⟩

/-- C9: `reconstruct_from_masks` always returns a tagged success/failure
record (the embedding's return type has no raising path): when the input
is not 3-dimensional, or the body raises anywhere (extraction errors
included — post-processing, metrics and export recover internally and
cannot raise), the result is the failure record carrying the error
message, never a propagated exception. -/
theorem reconstruct_failure_contract (env : ReconEnv) (masks : NdArray) (s : Spacing)
    (t : ℚ)
    (h : masks.shape.length ≠ 3 ∨ ∃ e, reconBody env masks s t = Except.error e) :
    ∃ e, reconstruct_from_masks env masks s t = ReconResult.failure e := by
  cases h with
  | inl hdim =>
    exact ⟨"Ожидается 3D массив", by simp [reconstruct_from_masks, reconBody, hdim]⟩
  | inr herr =>
    obtain ⟨e, he⟩ := herr
    exact ⟨e, by simp [reconstruct_from_masks, he]⟩

/-- C9 witness: the contract at a 2-dimensional mask array. -/
theorem reconstruct_failure_contract_witness :
    (masksFlat.shape.length ≠ 3 ∨
      ∃ e, reconBody solidContourEnv masksFlat ⟨1, 1, 1⟩ 1 = Except.error e) ∧
    ∃ e, reconstruct_from_masks solidContourEnv masksFlat ⟨1, 1, 1⟩ 1 =
      ReconResult.failure e :=
  ⟨Or.inl (by norm_num [masksFlat]),
    reconstruct_failure_contract solidContourEnv masksFlat ⟨1, 1, 1⟩ 1
      (Or.inl (by norm_num [masksFlat]))⟩

/-- C10: the series metadata of `read_dicom_series_bytes` comes exclusively
from the element at index 0 of the input list — it is invariant under
changing every later element, equals `metaOf` of the first element whenever
that element parses with pixel data, and when the first element fails to
parse while later elements succeed the read still succeeds with an empty
`series_info`. -/
theorem series_info_from_first_file (e : String) (rest : List DicomParse)
    (r : SeriesResult)
    (hok : read_dicom_series_bytes (DicomParse.failed e :: rest) = Except.ok r) :
    r.seriesInfo = none ∧
    (∀ f0 rest1 rest2, seriesMetaOf (f0 :: rest1) = seriesMetaOf (f0 :: rest2)) ∧
    (∀ obj rest3, seriesMetaOf (DicomParse.ok obj :: rest3) = some (metaOf obj)) ∧
    (∀ files r2, read_dicom_series_bytes files = Except.ok r2 →
      r2.seriesInfo = seriesMetaOf files) := by
  have hgen : ∀ files r2, read_dicom_series_bytes files = Except.ok r2 →
      r2.seriesInfo = seriesMetaOf files := by
    intro files r2 h2
    rw [read_dicom_series_bytes] at h2
    cases hc : collectSlices 0 files with
    | nil => rw [hc] at h2; cases h2
    | cons a rest0 =>
      rw [hc] at h2
      simp only [] at h2
      cases hst : npStack (List.map (fun s => s.pixels) (sortSlices (a :: rest0))) with
      | error e0 => rw [hst] at h2; cases h2
      | ok vol =>
        rw [hst] at h2
        have := (Except.ok.injEq _ _).mp h2
        rw [← this]
  refine ⟨?_, ?_, ?_, hgen⟩
  · have := hgen _ r hok
    rw [this]
    rfl
  · intro f0 rest1 rest2
    cases f0 <;> rfl
  · intro obj rest3
    rfl

/-- C10 witness: a two-file series whose first file fails to parse; the
read succeeds with empty series metadata. -/
theorem series_info_from_first_file_witness :
    read_dicom_series_bytes firstFailedFiles = Except.ok firstFailedResult ∧
    (firstFailedResult.seriesInfo = none ∧
      (∀ f0 rest1 rest2, seriesMetaOf (f0 :: rest1) = seriesMetaOf (f0 :: rest2)) ∧
      (∀ obj rest3, seriesMetaOf (DicomParse.ok obj :: rest3) = some (metaOf obj)) ∧
      (∀ files r2, read_dicom_series_bytes files = Except.ok r2 →
        r2.seriesInfo = seriesMetaOf files)) :=
  ⟨by norm_num [read_dicom_series_bytes, firstFailedFiles, firstFailedResult,
      collectSlices, plainObj, processSlicePixels, applyRescale, normalizeNoWindow,
      gridValues, listMinD, listMaxD, gridMap, uint8, resolvePosition, sortSlices,
      List.insertionSort, List.orderedInsert, npStack, gridShape, seriesMetaOf],
    series_info_from_first_file "Invalid DICOM" [DicomParse.ok (plainObj [[0]] 1 1 0)]
      firstFailedResult
      (by norm_num [read_dicom_series_bytes, firstFailedFiles, firstFailedResult,
        collectSlices, plainObj, processSlicePixels, applyRescale, normalizeNoWindow,
        gridValues, listMinD, listMaxD, gridMap, uint8, resolvePosition, sortSlices,
        List.insertionSort, List.orderedInsert, npStack, gridShape, seriesMetaOf])⟩

end LiverSeg
